import Mathlib

/-!
Shallow embedding of `src/wiki.go`, a minimal wiki HTTP server.

The Go program consists of:
  * a data type `Page` (title plus raw body bytes),
  * a flat-file page store (`Page.save`, `loadPage`) over `os.WriteFile` /
    `os.ReadFile`,
  * a routing wrapper `makeHandler` built on the anchored regular expression
    `validPath = ^/(edit|save|view)/([a-zA-Z0-9]+)$`,
  * three domain handlers (`viewHandler`, `editHandler`, `saveHandler`),
  * template loading at package initialisation
    (`template.Must(template.ParseFiles(...))`), and
  * `main`, which registers the three routes on the default mux.

The embedding models the filesystem as an explicit state value threaded
through the handlers, and an HTTP response as an inductive value recording
which terminal write the handler performed on the `ResponseWriter`.
Go strings and `[]byte` values are byte sequences; we model raw byte
content as `List Nat` and keep `String` for the values the program treats
as text (paths, titles, filenames, form keys).
-/

namespace Wiki

/-- Raw byte content: Go `[]byte` (and Go string payloads, which are
also plain byte sequences). -/
abbrev Bytes := List Nat

/-- `type Page struct { Title string; Body []byte }` (wiki.go:14-17). -/
structure Page where
  Title : String
  Body  : Bytes
deriving DecidableEq

/-- A stored file: its content bytes and its permission bits
(the `perm` of `os.WriteFile`, e.g. `0o600`). -/
structure File where
  data : Bytes
  perm : Nat
deriving DecidableEq

/-- The filesystem state seen by the process.  `files` maps a file name to
its content and mode.  `writeErr` is the environment's injected I/O fault
model: `writeErr name = some e` means a write to `name` fails with error
message `e` (disk full, permission denied, ...); `none` means writes to
`name` succeed.  Reads fail exactly on absent files. -/
structure FS where
  files : String → Option File
  writeErr : String → Option String

/-- `os.ReadFile name`: returns the content bytes, or an error when the
file does not exist. -/
def FS.readFile (fs : FS) (name : String) : Except String Bytes :=
  match fs.files name with
  | some f => .ok f.data
  | none => .error ("open " ++ name ++ ": no such file or directory")

/-- `os.WriteFile name data perm`: creates the file with permission `perm`
if absent, otherwise truncates and overwrites it keeping its existing
permission (Go `os.WriteFile` documented behaviour); may fail with an
injected I/O error, in which case the state is unchanged. -/
def FS.writeFile (fs : FS) (name : String) (data : Bytes) (perm : Nat) :
    Except String FS :=
  match fs.writeErr name with
  | some e => .error e
  | none =>
    .ok { fs with
          files := fun n =>
            if n = name then
              some ⟨data,
                    match fs.files name with
                    | some f => f.perm
                    | none => perm⟩
            else fs.files n }

/-- `func (p *Page) save() error` (wiki.go:30-33):
`filename := p.Title + ".txt"; os.WriteFile("data/"+filename, p.Body, 0600)`
(note the grouping: the `.txt` suffix is appended to the title first). -/
def Page.save (p : Page) (fs : FS) : Except String FS :=
  fs.writeFile ("data/" ++ (p.Title ++ ".txt")) p.Body 0o600

/-- `func loadPage(title string) (*Page, error)` (wiki.go:37-44):
`filename := "data/" + title + ".txt"; body, err := os.ReadFile(filename)`. -/
def loadPage (title : String) (fs : FS) : Except String Page :=
  match fs.readFile ("data/" ++ title ++ ".txt") with
  | .error err => .error err
  | .ok body => .ok { Title := title, Body := body }

/-- The character class `[a-zA-Z0-9]` of `validPath`. -/
def isAlnum (c : Char) : Bool :=
  ('a' ≤ c && c ≤ 'z') || ('A' ≤ c && c ≤ 'Z') || ('0' ≤ c && c ≤ '9')

/-- `[a-zA-Z0-9]+`: a non-empty run of ASCII alphanumerics. -/
def validTitle (cs : List Char) : Bool :=
  !cs.isEmpty && cs.all isAlnum

/-- Character-list test that `pre` begins `s` (literal-text matching step
of the regex engine). -/
def startsWithChars : List Char → List Char → Bool
  | [], _ => true
  | _ :: _, [] => false
  | a :: as, b :: bs => a == b && startsWithChars as bs

/-- One alternative of `validPath`: matches `^/<action>/([a-zA-Z0-9]+)$`
against `s`, yielding the two capture groups `(action, title)`. -/
def routeOne (action : String) (s : List Char) : Option (String × String) :=
  if startsWithChars ('/' :: (action.data ++ ['/'])) s then
    if validTitle (s.drop ('/' :: (action.data ++ ['/'])).length) then
      some (action, String.mk (s.drop ('/' :: (action.data ++ ['/'])).length))
    else none
  else none

/-- `validPath.FindStringSubmatch path` (wiki.go:20, used at wiki.go:57):
`validPath = ^/(edit|save|view)/([a-zA-Z0-9]+)$`.  Returns
`some (m₁, m₂)` for the two capture groups of a match (`m[1]`, `m[2]`),
`none` when the whole path fails to match.  The alternation is tried in
the regex's order `edit|save|view`; the three literal prefixes are
mutually exclusive. -/
def validPathFind (path : String) : Option (String × String) :=
  match routeOne "edit" path.data with
  | some m => some m
  | none =>
    match routeOne "save" path.data with
    | some m => some m
    | none => routeOne "view" path.data

/-- An HTTP request as the handlers see it: method, URL path, and the
parsed form (`FormValue` source).  Form values are raw Go strings,
i.e. byte sequences. -/
structure Request where
  method : String
  path : String
  form : String → Option Bytes

/-- `r.FormValue(key)` (wiki.go:93): the form field's value, or the empty
string when the field is absent. -/
def Request.formValue (r : Request) (key : String) : Bytes :=
  (r.form key).getD []

/-- The terminal write a handler performs on its `http.ResponseWriter`:
`http.NotFound`, `http.Redirect(..., status)`, `http.Error(..., status)`,
or executing a named template against a page
(`templates.ExecuteTemplate(w, name, p)`). -/
inductive Response where
  | notFound
  | redirect (location : String) (status : Nat)
  | httpError (status : Nat) (body : String)
  | render (tmplName : String) (page : Page)
deriving DecidableEq

/-- `func renderTemplate(w, tmpl, p)` (wiki.go:47-52): executes the cached
template named `tmpl + ".html"` with `p` as data.  The response records
that call; the template engine's own output is outside the core. -/
def renderTemplate (tmpl : String) (p : Page) : Response :=
  .render (tmpl ++ ".html") p

/-- The type of the three domain handlers:
`func(http.ResponseWriter, *http.Request, string)`, with the filesystem
state made explicit. -/
abbrev Handler := Request → String → FS → Response × FS

/-- `func makeHandler(fn) http.HandlerFunc` (wiki.go:55-64): matches the
request path against `validPath`; on failure replies `http.NotFound` and
returns, otherwise calls `fn` with the second capture group `m[2]`. -/
def makeHandler (fn : Handler) (r : Request) (fs : FS) : Response × FS :=
  match validPathFind r.path with
  | none => (.notFound, fs)
  | some m => fn r m.2 fs

/-- `func viewHandler` (wiki.go:68-75): load the page; on error redirect
to `/edit/<title>` with `http.StatusFound` (302); on success render the
"view" template. -/
def viewHandler (_r : Request) (title : String) (fs : FS) : Response × FS :=
  match loadPage title fs with
  | .error _ => (.redirect ("/edit/" ++ title) 302, fs)
  | .ok p => (renderTemplate "view" p, fs)

/-- `func editHandler` (wiki.go:80-86): load the page; on error substitute
`&Page{Title: title}` (zero-value body, i.e. empty); render the "edit"
template. -/
def editHandler (_r : Request) (title : String) (fs : FS) : Response × FS :=
  match loadPage title fs with
  | .error _ => (renderTemplate "edit" { Title := title, Body := [] }, fs)
  | .ok p => (renderTemplate "edit" p, fs)

/-- `func saveHandler` (wiki.go:92-101): read form field "body", build
`&Page{Title: title, Body: []byte(body)}`, save; on error reply
`http.Error(w, err.Error(), 500)`; on success redirect to
`/view/<title>` with `http.StatusFound` (302). -/
def saveHandler (r : Request) (title : String) (fs : FS) : Response × FS :=
  match Page.save { Title := title, Body := r.formValue "body" } fs with
  | .error err => (.httpError 500 err, fs)
  | .ok fs' => (.redirect ("/view/" ++ title) 302, fs')

/-- Test that `p` begins with the literal prefix `pre` (the default
`ServeMux` subtree match for a registered pattern ending in `/`). -/
def pathStarts (p pre : String) : Bool :=
  startsWithChars pre.data p.data

/-- `func main` (wiki.go:104-109), restricted to its routing table: the
default mux dispatches on the registered patterns "/view/", "/edit/",
"/save/" (subtree prefix match; the three are mutually exclusive, so
registration order is irrelevant) and replies 404 on anything else. -/
def serve (r : Request) (fs : FS) : Response × FS :=
  if pathStarts r.path "/view/" then makeHandler viewHandler r fs
  else if pathStarts r.path "/edit/" then makeHandler editHandler r fs
  else if pathStarts r.path "/save/" then makeHandler saveHandler r fs
  else (.notFound, fs)

/-- A parsed template, named by its source file. -/
structure Template where
  name : String
  source : Bytes
deriving DecidableEq

/-- `template.ParseFiles(f₁, ..., fₙ)`: parses each listed file, failing
as a whole when any single file fails to load or parse.  The argument is
the per-file load/parse outcome. -/
def parseFiles : List (Except String Template) → Except String (List Template)
  | [] => .ok []
  | .error e :: _ => .error e
  | .ok t :: rest => (parseFiles rest).map (t :: ·)

/-- `template.Must`: returns the template set on success and panics
(aborting the process) on a non-nil error; `none` models the panic. -/
def templateMust : Except String (List Template) → Option (List Template)
  | .error _ => none
  | .ok ts => some ts

/-- Outcome of process start: the package-level
`var templates = template.Must(template.ParseFiles("tmpl/edit.html",
"tmpl/view.html"))` (wiki.go:25) runs before `main`, so the process either
aborts during initialisation or reaches `main` and serves with the full
template set. -/
inductive StartupResult where
  | aborted
  | serving (templates : List Template)
deriving DecidableEq

/-- Process start: initialise the template cache from the load/parse
outcomes of `tmpl/edit.html` and `tmpl/view.html`; a panic in
`template.Must` aborts before any request is served. -/
def startServer (editResult viewResult : Except String Template) :
    StartupResult :=
  match templateMust (parseFiles [editResult, viewResult]) with
  | none => .aborted
  | some ts => .serving ts

/-! ### Concrete fixtures (used to instantiate theorems on closed inputs) -/

/-- An empty filesystem with no injected write faults. -/
def fsEmpty : FS := ⟨fun _ => none, fun _ => none⟩

/-- An empty filesystem on which every write fails with "disk full". -/
def fsDiskFull : FS := ⟨fun _ => none, fun _ => some "disk full"⟩

/-- A filesystem holding exactly one file, with no injected write faults. -/
def fsWith (name : String) (content : Bytes) : FS :=
  ⟨fun n => if n = name then some ⟨content, 0o600⟩ else none, fun _ => none⟩

/-- A parsed form whose only field is "body". -/
def formWith (content : Bytes) : String → Option Bytes :=
  fun k => if k = "body" then some content else none

/-- A concrete request. -/
def mkReq (method path : String) (form : String → Option Bytes) : Request :=
  ⟨method, path, form⟩

/-! ## Helper lemmas -/

/-- `startsWithChars pre s` holds exactly when `s` is `pre` followed by a
remainder. -/
theorem startsWithChars_iff (pre s : List Char) :
    startsWithChars pre s = true ↔ ∃ rest, s = pre ++ rest := by
  induction pre generalizing s with
  | nil => simp [startsWithChars]
  | cons a as ih =>
    cases s with
    | nil => simp [startsWithChars]
    | cons b bs =>
      simp only [startsWithChars, Bool.and_eq_true, beq_iff_eq, ih,
        List.cons_append, List.cons.injEq]
      constructor
      · rintro ⟨rfl, rest, rfl⟩
        exact ⟨rest, rfl, rfl⟩
      · rintro ⟨rest, rfl, rfl⟩
        exact ⟨rfl, rest, rfl⟩

/-- Soundness of one regex alternative: a match yields the action itself,
a valid title, and pins down the exact shape of the subject. -/
theorem routeOne_eq_some {a : String} {s : List Char} {m : String × String}
    (h : routeOne a s = some m) :
    m.1 = a ∧ validTitle m.2.data = true ∧
      s = '/' :: (a.data ++ '/' :: m.2.data) := by
  unfold routeOne at h
  split at h
  case isTrue hpre =>
    obtain ⟨rest, rfl⟩ := (startsWithChars_iff _ _).mp hpre
    rw [List.drop_left] at h
    split at h
    case isTrue hv =>
      cases Option.some.inj h
      exact ⟨rfl, hv, by simp [List.append_assoc]⟩
    case isFalse => exact absurd h (by simp)
  case isFalse => exact absurd h (by simp)

/-- Completeness of one regex alternative on a subject of the right
shape. -/
theorem routeOne_complete (a t : String) (hv : validTitle t.data = true) :
    routeOne a ('/' :: (a.data ++ '/' :: t.data)) = some (a, t) := by
  unfold routeOne
  have hshape : '/' :: (a.data ++ '/' :: t.data)
      = ('/' :: (a.data ++ ['/'])) ++ t.data := by
    simp [List.append_assoc]
  rw [hshape, (startsWithChars_iff _ _).mpr ⟨t.data, rfl⟩, if_pos rfl,
    List.drop_left, hv, if_pos rfl]

/-- Strings with equal character data are equal. -/
theorem stringDataEq {s₁ s₂ : String} (h : s₁.data = s₂.data) : s₁ = s₂ :=
  congrArg String.mk h

/-- String append is associative. -/
theorem strAppend_assoc (a b c : String) : a ++ b ++ c = a ++ (b ++ c) :=
  stringDataEq (by simp [String.data_append, List.append_assoc])

/-- Character data of a `/<action>/<title>` path. -/
theorem shape_data (a t : String) :
    ("/" ++ a ++ "/" ++ t).data = '/' :: (a.data ++ '/' :: t.data) := by
  simp [String.data_append, List.append_assoc,
    show ("/" : String).data = ['/'] from rfl]

/-- Full characterisation of `validPath.FindStringSubmatch`: it succeeds
with groups `(a, t)` exactly on the paths `/edit/t`, `/save/t`, `/view/t`
with `t` a non-empty ASCII-alphanumeric title. -/
theorem validPathFind_eq_some_iff (p a t : String) :
    validPathFind p = some (a, t) ↔
      ((a = "edit" ∨ a = "save" ∨ a = "view") ∧ validTitle t.data = true ∧
        p = "/" ++ a ++ "/" ++ t) := by
  constructor
  · intro h
    unfold validPathFind at h
    cases he : routeOne "edit" p.data with
    | some m =>
      simp only [he] at h
      cases h
      obtain ⟨h1, h2, h3⟩ := routeOne_eq_some he
      have h1' : a = "edit" := h1
      subst h1'
      refine ⟨Or.inl rfl, h2, stringDataEq ?_⟩
      rw [shape_data]
      exact h3
    | none =>
      simp only [he] at h
      cases hs : routeOne "save" p.data with
      | some m =>
        simp only [hs] at h
        cases h
        obtain ⟨h1, h2, h3⟩ := routeOne_eq_some hs
        have h1' : a = "save" := h1
        subst h1'
        refine ⟨Or.inr (Or.inl rfl), h2, stringDataEq ?_⟩
        rw [shape_data]
        exact h3
      | none =>
        simp only [hs] at h
        obtain ⟨h1, h2, h3⟩ := routeOne_eq_some h
        have h1' : a = "view" := h1
        subst h1'
        refine ⟨Or.inr (Or.inr rfl), h2, stringDataEq ?_⟩
        rw [shape_data]
        exact h3
  · rintro ⟨ha, hv, rfl⟩
    rcases ha with rfl | rfl | rfl
    · unfold validPathFind
      rw [show ("/" ++ "edit" ++ "/" ++ t).data
            = '/' :: ("edit".data ++ '/' :: t.data) from rfl,
        routeOne_complete "edit" t hv]
    · unfold validPathFind
      rw [show ("/" ++ "save" ++ "/" ++ t).data
            = '/' :: ("save".data ++ '/' :: t.data) from rfl]
      rw [show routeOne "edit" ('/' :: ("save".data ++ '/' :: t.data))
            = none from rfl]
      rw [routeOne_complete "save" t hv]
    · unfold validPathFind
      rw [show ("/" ++ "view" ++ "/" ++ t).data
            = '/' :: ("view".data ++ '/' :: t.data) from rfl]
      rw [show routeOne "edit" ('/' :: ("view".data ++ '/' :: t.data))
            = none from rfl]
      rw [show routeOne "save" ('/' :: ("view".data ++ '/' :: t.data))
            = none from rfl]
      rw [routeOne_complete "view" t hv]

/-- A write with no injected fault succeeds and updates exactly the named
file (keeping the old permission when overwriting). -/
theorem writeFile_ok (fs : FS) (name : String) (data : Bytes) (perm : Nat)
    (hw : fs.writeErr name = none) :
    fs.writeFile name data perm =
      .ok { fs with
            files := fun n =>
              if n = name then
                some ⟨data,
                      match fs.files name with
                      | some f => f.perm
                      | none => perm⟩
              else fs.files n } := by
  unfold FS.writeFile
  rw [hw]

/-- `Page.save` with no injected fault: the stored file under
`data/<title>.txt` becomes exactly the body. -/
theorem save_ok (t : String) (B : Bytes) (fs : FS)
    (hw : fs.writeErr ("data/" ++ t ++ ".txt") = none) :
    Page.save { Title := t, Body := B } fs =
      .ok { fs with
            files := fun n =>
              if n = ("data/" ++ t ++ ".txt") then
                some ⟨B,
                      match fs.files ("data/" ++ t ++ ".txt") with
                      | some f => f.perm
                      | none => 0o600⟩
              else fs.files n } := by
  unfold Page.save
  rw [← strAppend_assoc "data/" t ".txt"]
  exact writeFile_ok fs _ B 0o600 hw

/-- `loadPage` in terms of the raw file map. -/
theorem loadPage_eq (t : String) (fs : FS) :
    loadPage t fs =
      match fs.files ("data/" ++ t ++ ".txt") with
      | some f => .ok { Title := t, Body := f.data }
      | none => .error ("open " ++ ("data/" ++ t ++ ".txt")
          ++ ": no such file or directory") := by
  unfold loadPage FS.readFile
  cases fs.files ("data/" ++ t ++ ".txt") <;> rfl

/-- `Page.save` with an injected fault fails with that fault's message. -/
theorem save_err (t : String) (B : Bytes) (fs : FS) (e : String)
    (hw : fs.writeErr ("data/" ++ t ++ ".txt") = some e) :
    Page.save { Title := t, Body := B } fs = .error e := by
  unfold Page.save FS.writeFile
  rw [← strAppend_assoc "data/" t ".txt", hw]

/-- `saveHandler` on a fault-free store: redirect plus the exact updated
filesystem. -/
theorem saveHandler_ok (r : Request) (t : String) (fs : FS)
    (hw : fs.writeErr ("data/" ++ t ++ ".txt") = none) :
    saveHandler r t fs = (.redirect ("/view/" ++ t) 302,
      { fs with
        files := fun n =>
          if n = ("data/" ++ t ++ ".txt") then
            some ⟨r.formValue "body",
                  match fs.files ("data/" ++ t ++ ".txt") with
                  | some f => f.perm
                  | none => 0o600⟩
          else fs.files n }) := by
  unfold saveHandler
  rw [save_ok t (r.formValue "body") fs hw]

/-! ## Claims -/

/-- Claim C1: for every HTTP request path accepted by the router (so a
domain handler runs), the extracted title is a non-empty run of ASCII
alphanumerics; consequently the filename `"data/" ++ title ++ ".txt"`
used by load and save contains no path separator beyond the single one
delimiting the `data/` storage root, so it never escapes that root. -/
theorem C1_router_title_alnum_no_traversal (p a t : String)
    (h : validPathFind p = some (a, t)) :
    t.data ≠ [] ∧ (∀ c ∈ t.data, isAlnum c = true) ∧
      '/' ∉ t.data ∧ '\\' ∉ t.data ∧
      ("data/" ++ t ++ ".txt").data.count '/' = 1 := by
  obtain ⟨-, hv, -⟩ := (validPathFind_eq_some_iff p a t).mp h
  rw [validTitle, Bool.and_eq_true] at hv
  have hall : ∀ c ∈ t.data, isAlnum c = true := by
    simpa [List.all_eq_true] using hv.2
  have hne : t.data ≠ [] := by
    intro hnil
    rw [hnil] at hv
    simpa using hv.1
  have hslash : '/' ∉ t.data := fun hm => absurd (hall _ hm) (by decide)
  have hbs : '\\' ∉ t.data := fun hm => absurd (hall _ hm) (by decide)
  refine ⟨hne, hall, hslash, hbs, ?_⟩
  have hd : ("data/" ++ t ++ ".txt").data
      = ['d', 'a', 't', 'a', '/'] ++ (t.data ++ ['.', 't', 'x', 't']) := by
    simp [String.data_append,
      show ("data/" : String).data = ['d', 'a', 't', 'a', '/'] from rfl,
      show (".txt" : String).data = ['.', 't', 'x', 't'] from rfl]
  rw [hd, List.count_append, List.count_append, List.count_eq_zero.mpr hslash]
  rfl

/-- Witness for C1 at the accepted path `/view/Abc9`. -/
theorem C1_witness :
    ("Abc9" : String).data ≠ [] ∧
      (∀ c ∈ ("Abc9" : String).data, isAlnum c = true) ∧
      '/' ∉ ("Abc9" : String).data ∧ '\\' ∉ ("Abc9" : String).data ∧
      ("data/" ++ "Abc9" ++ ".txt").data.count '/' = 1 :=
  C1_router_title_alnum_no_traversal "/view/Abc9" "view" "Abc9" rfl

/-- Claim C2: for every request path not of the exact shape
`/view/<title>`, `/edit/<title>`, `/save/<title>` with `<title>` matching
`[a-zA-Z0-9]+`, the wrapped handler replies `http.NotFound` and does not
invoke any domain handler (the result is the same whatever handler was
wrapped, and the filesystem is untouched). -/
theorem C2_unmatched_path_404 (fn fn' : Handler) (r : Request) (fs : FS)
    (h : ¬ ∃ a t : String, (a = "edit" ∨ a = "save" ∨ a = "view") ∧
        validTitle t.data = true ∧ r.path = "/" ++ a ++ "/" ++ t) :
    makeHandler fn r fs = (Response.notFound, fs) ∧
      makeHandler fn r fs = makeHandler fn' r fs := by
  have hnone : validPathFind r.path = none := by
    cases hv : validPathFind r.path with
    | none => rfl
    | some m =>
      exact absurd ⟨m.1, m.2,
        (validPathFind_eq_some_iff r.path m.1 m.2).mp (by rw [hv])⟩ h
  constructor
  · unfold makeHandler
    rw [hnone]
  · unfold makeHandler
    rw [hnone]

/-- Witness for C2 at the rejected path `/view/foo!`. -/
theorem C2_witness :
    makeHandler viewHandler (mkReq "GET" "/view/foo!" (fun _ => none)) fsEmpty
      = (Response.notFound, fsEmpty) ∧
    makeHandler viewHandler (mkReq "GET" "/view/foo!" (fun _ => none)) fsEmpty
      = makeHandler editHandler (mkReq "GET" "/view/foo!" (fun _ => none))
          fsEmpty :=
  C2_unmatched_path_404 viewHandler editHandler _ _ (by
    rintro ⟨a, t, ha, hv, hp⟩
    have hsome : validPathFind "/view/foo!" = some (a, t) :=
      (validPathFind_eq_some_iff _ a t).mpr ⟨ha, hv, hp⟩
    rw [show validPathFind "/view/foo!" = none from rfl] at hsome
    cases hsome)

/-- Claim C3: for every title matching `[a-zA-Z0-9]+` and every body `B`,
saving `Page{title, B}` succeeds (over a fault-free store) and a
subsequent `loadPage title` returns a page with this exact title and
body, so a subsequent view renders the "view" template on content `B`
(save/load round-trip). -/
theorem C3_save_load_roundtrip (t : String) (B : Bytes) (fs : FS)
    (_hv : validTitle t.data = true)
    (hw : fs.writeErr ("data/" ++ t ++ ".txt") = none) :
    ∃ fs', Page.save { Title := t, Body := B } fs = .ok fs' ∧
      loadPage t fs' = .ok { Title := t, Body := B } ∧
      ∀ r : Request, viewHandler r t fs' =
        (Response.render "view.html" { Title := t, Body := B }, fs') := by
  refine ⟨_, save_ok t B fs hw, ?_, ?_⟩
  · rw [loadPage_eq]
    simp
  · intro r
    unfold viewHandler
    rw [loadPage_eq]
    simp [renderTemplate]

/-- Witness for C3 with title `X` and body `[97]`. -/
theorem C3_witness :
    ∃ fs', Page.save { Title := "X", Body := [97] } fsEmpty = .ok fs' ∧
      loadPage "X" fs' = .ok { Title := "X", Body := [97] } ∧
      ∀ r : Request, viewHandler r "X" fs' =
        (Response.render "view.html" { Title := "X", Body := [97] }, fs') :=
  C3_save_load_roundtrip "X" [97] fsEmpty rfl rfl

/-- Claim C4: `Page.save` is exactly a write of `p.Body` to the file
`"data/" ++ p.Title ++ ".txt"` with permission mode `0600`, with no
escaping or transformation of title or body: the call equals the raw
`os.WriteFile` call; on fault-free success the stored data is exactly
the body, an absent file is created with mode `0600`, and no other file
changes. -/
theorem C4_save_exact_write (p : Page) (fs : FS) :
    Page.save p fs = fs.writeFile ("data/" ++ p.Title ++ ".txt") p.Body 0o600 ∧
    (fs.writeErr ("data/" ++ p.Title ++ ".txt") = none →
      ∃ fs', Page.save p fs = .ok fs' ∧
        ((fs'.files ("data/" ++ p.Title ++ ".txt")).map File.data
          = some p.Body) ∧
        (fs.files ("data/" ++ p.Title ++ ".txt") = none →
          fs'.files ("data/" ++ p.Title ++ ".txt") = some ⟨p.Body, 0o600⟩) ∧
        ∀ n, n ≠ ("data/" ++ p.Title ++ ".txt") → fs'.files n = fs.files n) := by
  constructor
  · unfold Page.save
    rw [strAppend_assoc]
  · intro hw
    refine ⟨_, save_ok p.Title p.Body fs hw, ?_, ?_, ?_⟩
    · simp
    · intro habs
      simp [habs]
    · intro n hn
      simp [hn]

/-- Witness for C4 on the empty store with title `T`, body `[98]`. -/
theorem C4_witness :
    (Page.save { Title := "T", Body := [98] } fsEmpty
      = FS.writeFile fsEmpty ("data/" ++ "T" ++ ".txt") [98] 0o600) ∧
    (∃ fs', Page.save { Title := "T", Body := [98] } fsEmpty = .ok fs' ∧
      ((fs'.files ("data/" ++ "T" ++ ".txt")).map File.data = some [98]) ∧
      (fsEmpty.files ("data/" ++ "T" ++ ".txt") = none →
        fs'.files ("data/" ++ "T" ++ ".txt") = some ⟨[98], 0o600⟩) ∧
      ∀ n, n ≠ ("data/" ++ "T" ++ ".txt") → fs'.files n = fsEmpty.files n) :=
  ⟨(C4_save_exact_write { Title := "T", Body := [98] } fsEmpty).1,
   (C4_save_exact_write { Title := "T", Body := [98] } fsEmpty).2 rfl⟩

/-- Claim C5: for every validated title, when `loadPage` fails the view
handler replies with a `http.StatusFound` (302) redirect to
`"/edit/" ++ title` (and renders nothing), and when `loadPage` succeeds
it renders the "view" template with the loaded page. -/
theorem C5_view_absent_redirect (r : Request) (t : String) (fs : FS) :
    (∀ e, loadPage t fs = .error e →
      viewHandler r t fs = (.redirect ("/edit/" ++ t) 302, fs)) ∧
    (∀ p, loadPage t fs = .ok p →
      viewHandler r t fs = (.render "view.html" p, fs)) := by
  constructor
  · intro e he
    unfold viewHandler
    rw [he]
  · intro p hp
    unfold viewHandler
    rw [hp]
    rfl

/-- Witness for C5 on title `alice`: absent page redirects, stored page
renders. -/
theorem C5_witness :
    viewHandler (mkReq "GET" "/view/alice" (fun _ => none)) "alice" fsEmpty
      = (Response.redirect ("/edit/" ++ "alice") 302, fsEmpty) ∧
    viewHandler (mkReq "GET" "/view/alice" (fun _ => none)) "alice"
        (fsWith "data/alice.txt" [104])
      = (Response.render "view.html" { Title := "alice", Body := [104] },
         fsWith "data/alice.txt" [104]) :=
  ⟨(C5_view_absent_redirect _ "alice" _).1 _ rfl,
   (C5_view_absent_redirect _ "alice" _).2 _ rfl⟩

/-- Claim C6: for every validated title, when `loadPage` fails the edit
handler renders the "edit" template with a page carrying the requested
title and an empty body; when `loadPage` succeeds it renders the "edit"
template with the loaded page. -/
theorem C6_edit_blank_on_absent (r : Request) (t : String) (fs : FS) :
    (∀ e, loadPage t fs = .error e →
      editHandler r t fs = (.render "edit.html" { Title := t, Body := [] }, fs)) ∧
    (∀ p, loadPage t fs = .ok p →
      editHandler r t fs = (.render "edit.html" p, fs)) := by
  constructor
  · intro e he
    unfold editHandler
    rw [he]
    rfl
  · intro p hp
    unfold editHandler
    rw [hp]
    rfl

/-- Witness for C6 on title `bob`: absent page gives an empty-body form,
stored page gives its body. -/
theorem C6_witness :
    editHandler (mkReq "GET" "/edit/bob" (fun _ => none)) "bob" fsEmpty
      = (Response.render "edit.html" { Title := "bob", Body := [] }, fsEmpty) ∧
    editHandler (mkReq "GET" "/edit/bob" (fun _ => none)) "bob"
        (fsWith "data/bob.txt" [104])
      = (Response.render "edit.html" { Title := "bob", Body := [104] },
         fsWith "data/bob.txt" [104]) :=
  ⟨(C6_edit_blank_on_absent _ "bob" _).1 _ rfl,
   (C6_edit_blank_on_absent _ "bob" _).2 _ rfl⟩

/-- Claim C7: for every validated title, the save handler reads the form
field "body", builds `Page{title, body}`, and saves it; if the save
fails it replies HTTP 500 with the error's message as body, and if it
succeeds it replies with a 302 redirect to `"/view/" ++ title`, the
stored file holding exactly the submitted body. -/
theorem C7_save_handler_branches (r : Request) (t : String) (fs : FS) :
    (∀ e, fs.writeErr ("data/" ++ t ++ ".txt") = some e →
      saveHandler r t fs = (.httpError 500 e, fs)) ∧
    (fs.writeErr ("data/" ++ t ++ ".txt") = none →
      ∃ fs', saveHandler r t fs = (.redirect ("/view/" ++ t) 302, fs') ∧
        (fs'.files ("data/" ++ t ++ ".txt")).map File.data
          = some (r.formValue "body")) := by
  constructor
  · intro e hw
    unfold saveHandler
    rw [save_err t (r.formValue "body") fs e hw]
  · intro hw
    refine ⟨_, saveHandler_ok r t fs hw, ?_⟩
    simp

/-- Witness for C7 on title `T`: a "disk full" fault yields 500 with that
message; a fault-free save redirects and stores the form body. -/
theorem C7_witness :
    saveHandler (mkReq "POST" "/save/T" (formWith [104, 105])) "T" fsDiskFull
      = (Response.httpError 500 "disk full", fsDiskFull) ∧
    ∃ fs', saveHandler (mkReq "POST" "/save/T" (formWith [104, 105])) "T" fsEmpty
      = (Response.redirect ("/view/" ++ "T") 302, fs') ∧
      (fs'.files ("data/" ++ "T" ++ ".txt")).map File.data
        = some (Request.formValue
            (mkReq "POST" "/save/T" (formWith [104, 105])) "body") :=
  ⟨(C7_save_handler_branches _ "T" _).1 "disk full" rfl,
   (C7_save_handler_branches _ "T" _).2 rfl⟩

/-- Claim C8: saving body `a` then body `b` to the same title leaves the
stored content equal to `b`: the second save unconditionally overwrites
the first (last-write-wins, no merging, no versioning). -/
theorem C8_second_save_overwrites (t : String) (a b : Bytes) (fs : FS)
    (hw : fs.writeErr ("data/" ++ t ++ ".txt") = none) :
    ∃ fs₁ fs₂, Page.save { Title := t, Body := a } fs = .ok fs₁ ∧
      Page.save { Title := t, Body := b } fs₁ = .ok fs₂ ∧
      (fs₂.files ("data/" ++ t ++ ".txt")).map File.data = some b ∧
      loadPage t fs₂ = .ok { Title := t, Body := b } := by
  refine ⟨_, _, save_ok t a fs hw, save_ok t b _ hw, ?_, ?_⟩
  · simp
  · rw [loadPage_eq]
    simp

/-- Witness for C8: save `X` to `[97]` then `[98]`; `[98]` remains. -/
theorem C8_witness :
    ∃ fs₁ fs₂, Page.save { Title := "X", Body := [97] } fsEmpty = .ok fs₁ ∧
      Page.save { Title := "X", Body := [98] } fs₁ = .ok fs₂ ∧
      (fs₂.files ("data/" ++ "X" ++ ".txt")).map File.data = some [98] ∧
      loadPage "X" fs₂ = .ok { Title := "X", Body := [98] } :=
  C8_second_save_overwrites "X" [97] [98] fsEmpty rfl

/-- Claim C9: if either template file (`tmpl/edit.html` or
`tmpl/view.html`) fails to load or parse at process start, the process
aborts before serving any request; and whenever the process serves, its
template set is exactly the two successfully parsed templates, never a
partial set. -/
theorem C9_template_failure_aborts (er vr : Except String Template) :
    (((∃ e, er = .error e) ∨ (∃ e, vr = .error e)) →
      startServer er vr = .aborted) ∧
    (∀ ts, startServer er vr = .serving ts →
      ∃ te tv, er = .ok te ∧ vr = .ok tv ∧ ts = [te, tv]) := by
  constructor
  · intro h
    cases er with
    | error e => rfl
    | ok te =>
      cases vr with
      | error e => rfl
      | ok tv =>
        rcases h with ⟨e, he⟩ | ⟨e, he⟩ <;> cases he
  · intro ts h
    cases er with
    | error e => simp [startServer, parseFiles, templateMust] at h
    | ok te =>
      cases vr with
      | error e => simp [startServer, parseFiles, templateMust, Except.map] at h
      | ok tv =>
        simp only [startServer, parseFiles, templateMust, Except.map] at h
        cases h
        exact ⟨te, tv, rfl, rfl, rfl⟩

/-- Witness for C9: a failing edit-template parse aborts startup; two
parsed templates serve with exactly those two. -/
theorem C9_witness :
    startServer (.error "template parse failure") (.ok ⟨"tmpl/view.html", []⟩)
      = .aborted ∧
    ∃ te tv, (Except.ok ⟨"tmpl/edit.html", []⟩ : Except String Template)
        = .ok te ∧
      (Except.ok ⟨"tmpl/view.html", []⟩ : Except String Template) = .ok tv ∧
      ([⟨"tmpl/edit.html", []⟩, ⟨"tmpl/view.html", []⟩] : List Template)
        = [te, tv] :=
  ⟨(C9_template_failure_aborts (.error "template parse failure")
      (.ok ⟨"tmpl/view.html", []⟩)).1 (Or.inl ⟨"template parse failure", rfl⟩),
   (C9_template_failure_aborts (.ok ⟨"tmpl/edit.html", []⟩)
      (.ok ⟨"tmpl/view.html", []⟩)).2 _ rfl⟩

/-- Claim C10: the server never inspects the HTTP method: two requests
differing only in method get identical responses on every path, and a
request whose path is `/save/<valid title>` reaches the save handler
and persists the form body whatever its method. -/
theorem C10_method_never_inspected (method method' : String) (t : String)
    (form : String → Option Bytes) (fs : FS)
    (hv : validTitle t.data = true)
    (hw : fs.writeErr ("data/" ++ t ++ ".txt") = none) :
    (∀ path, serve { method := method, path := path, form := form } fs
        = serve { method := method', path := path, form := form } fs) ∧
    ∃ fs', serve { method := method, path := "/save/" ++ t, form := form } fs
        = (.redirect ("/view/" ++ t) 302, fs') ∧
      (fs'.files ("data/" ++ t ++ ".txt")).map File.data
        = some ((form "body").getD []) := by
  constructor
  · intro path
    rfl
  · have hfind : validPathFind ("/save/" ++ t) = some ("save", t) :=
      (validPathFind_eq_some_iff ("/save/" ++ t) "save" t).mpr
        ⟨Or.inr (Or.inl rfl), hv, rfl⟩
    have hserve : serve { method := method, path := "/save/" ++ t, form := form } fs
        = saveHandler { method := method, path := "/save/" ++ t, form := form }
            t fs := by
      unfold serve makeHandler
      rw [show pathStarts ("/save/" ++ t) "/view/" = false from rfl]
      rw [show pathStarts ("/save/" ++ t) "/edit/" = false from rfl]
      rw [show pathStarts ("/save/" ++ t) "/save/" = true from rfl]
      simp only [Bool.false_eq_true, if_false, if_true, hfind]
    refine ⟨{ fs with
        files := fun n =>
          if n = ("data/" ++ t ++ ".txt") then
            some ⟨(form "body").getD [],
                  match fs.files ("data/" ++ t ++ ".txt") with
                  | some f => f.perm
                  | none => 0o600⟩
          else fs.files n }, ?_, ?_⟩
    · rw [hserve, saveHandler_ok _ t fs hw]
      rfl
    · simp

/-- Witness for C10: a GET and a PUT behave identically, and a GET to
`/save/T` persists the form body. -/
theorem C10_witness :
    (∀ path, serve (mkReq "GET" path (formWith [104])) fsEmpty
      = serve (mkReq "PUT" path (formWith [104])) fsEmpty) ∧
    ∃ fs', serve (mkReq "GET" ("/save/" ++ "T") (formWith [104])) fsEmpty
      = (Response.redirect ("/view/" ++ "T") 302, fs') ∧
      (fs'.files ("data/" ++ "T" ++ ".txt")).map File.data
        = some ((formWith [104] "body").getD []) :=
  C10_method_never_inspected "GET" "PUT" "T" (formWith [104]) fsEmpty rfl rfl

end Wiki
